import Mathlib

/-!
Verification of the model-document synthesis engine of `convert.py`
(Blender → Gazebo SDF exporter).

The Python source is shallowly embedded below.  Python strings are modelled
as Lean `String`s / `List Char` (a Python `str` is a sequence of code
points).  The `xml.etree.ElementTree` trees built by the exporter are
modelled by the inductive type `Xml`; the imperative `SubElement`/`insert`
construction is rendered as pure construction of the same trees, in the
same child order.
-/

/-- XML element: tag, attributes (in insertion order), optional text,
children (in document order).  Models `xml.etree.ElementTree.Element`. -/
inductive Xml where
  | el (tag : String) (attrs : List (String × String)) (text : Option String)
      (children : List Xml)

def Xml.tag : Xml → String
  | .el t _ _ _ => t

def Xml.attrs : Xml → List (String × String)
  | .el _ a _ _ => a

def Xml.text : Xml → Option String
  | .el _ _ tx _ => tx

def Xml.children : Xml → List Xml
  | .el _ _ _ c => c

/-- `element.get(key)`: attribute lookup. -/
def Xml.attr (x : Xml) (k : String) : Option String :=
  x.attrs.lookup k

/-- `element.find(tag)`: first direct child with the given tag. -/
def Xml.findChild (x : Xml) (t : String) : Option Xml :=
  x.children.find? (fun c => c.tag == t)

/-- Walk a path of tags with `find` at each step. -/
def getPath (x : Xml) : List String → Option Xml
  | [] => some x
  | t :: rest =>
    match x.findChild t with
    | some c => getPath c rest
    | none => none

/-- Text of the element at a tag path. -/
def textAt (x : Xml) (p : List String) : Option String :=
  (getPath x p).bind Xml.text

@[simp] theorem Xml.tag_el (t : String) (a : List (String × String))
    (tx : Option String) (c : List Xml) : (Xml.el t a tx c).tag = t := rfl

@[simp] theorem Xml.attrs_el (t : String) (a : List (String × String))
    (tx : Option String) (c : List Xml) : (Xml.el t a tx c).attrs = a := rfl

@[simp] theorem Xml.text_el (t : String) (a : List (String × String))
    (tx : Option String) (c : List Xml) : (Xml.el t a tx c).text = tx := rfl

@[simp] theorem Xml.children_el (t : String) (a : List (String × String))
    (tx : Option String) (c : List Xml) : (Xml.el t a tx c).children = c := rfl

/-! ## Name sanitizer (`_sanitize_name`, convert.py lines 51–56) -/

/-- Membership in the regex character class `[0-9A-Za-z_]` of
`re.sub(r"[^0-9A-Za-z_]+", "_", s)`.  The class is pure ASCII. -/
def isWordChar (c : Char) : Bool :=
  c.isAlphanum || c == '_'

/-- Python's `str.isspace()` character set, which is exactly what the
argument-free `str.strip()` removes: the ASCII whitespace characters
`\t \n \x0b \x0c \r`, the separators `\x1c`-`\x1f`, the space, NEL
`\x85`, NBSP `\xa0`, and the Unicode space separators (Ogham space mark,
the en-quad..hair-space range U+2000-U+200A, the line and paragraph
separators, narrow no-break space, medium mathematical space, ideographic
space). -/
def pySpace (c : Char) : Bool :=
  (0x09 ≤ c.toNat && c.toNat ≤ 0x0D) || (0x1C ≤ c.toNat && c.toNat ≤ 0x1F) ||
  c.toNat == 0x20 || c.toNat == 0x85 || c.toNat == 0xA0 || c.toNat == 0x1680 ||
  (0x2000 ≤ c.toNat && c.toNat ≤ 0x200A) || c.toNat == 0x2028 || c.toNat == 0x2029 ||
  c.toNat == 0x202F || c.toNat == 0x205F || c.toNat == 0x3000

/-- `str.strip()` removes leading and trailing runs of `pySpace`
characters. -/
def pyStrip (l : List Char) : List Char :=
  (((l.dropWhile pySpace).reverse.dropWhile pySpace)).reverse

/-- `re.sub(r"[^0-9A-Za-z_]+", "_", s)`: each maximal run of characters
outside `[0-9A-Za-z_]` is replaced by a single `'_'`.  The boolean state
records whether the previous character belonged to a run already replaced,
so that a run contributes exactly one underscore. -/
def collapseAux : Bool → List Char → List Char
  | _, [] => []
  | inRun, c :: rest =>
    if isWordChar c then c :: collapseAux false rest
    else if inRun then collapseAux true rest
    else '_' :: collapseAux true rest

def collapse (l : List Char) : List Char :=
  collapseAux false l

/-- `_sanitize_name` on the code-point list: strip, collapse non-word runs,
then prepend `n_` when the (nonempty) result starts with a digit.  After
`collapse` every character is in `[0-9A-Za-z_]`, so Python's
`s[0].isdigit()` coincides with ASCII `Char.isDigit` here. -/
def sanitizeList (l : List Char) : List Char :=
  match collapse (pyStrip l) with
  | [] => []
  | c :: rest => if c.isDigit then 'n' :: '_' :: c :: rest else c :: rest

def sanitize_name (s : String) : String :=
  ⟨sanitizeList s.data⟩

/-! ## Material classifier (`_pick_material`, convert.py lines 59–67) -/

/-- `str.lower()` restricted to the characters that matter for the keyword
tables: ASCII letters plus the uppercase forms of the non-ASCII
(Vietnamese) characters occurring in the keyword lists; identity
elsewhere. -/
def pyLower (c : Char) : Char :=
  if c.isUpper then c.toLower
  else
    match c with
    | 'Ỗ' => 'ỗ' | 'Â' => 'â' | 'À' => 'à' | 'Í' => 'í' | 'Ử' => 'ử'
    | 'Ặ' => 'ặ' | 'Á' => 'á' | 'Đ' => 'đ' | 'Ư' => 'ư' | 'Ờ' => 'ờ'
    | 'Ố' => 'ố' | 'Õ' => 'õ' | 'Ạ' => 'ạ' | 'Ộ' => 'ộ' | 'Ã' => 'ã'
    | 'Ỉ' => 'ỉ' | 'È' => 'è' | 'Ê' => 'ê' | 'Ô' => 'ô' | 'Ự' => 'ự'
    | _ => c

/-- Python's substring test `needle in hay`. -/
def containsSub (hay needle : List Char) : Bool :=
  if needle.isPrefixOf hay then true
  else
    match hay with
    | [] => false
    | _ :: t => containsSub t needle

def WOOD_KEYS : List String :=
  ["tree", "forest", "trunk", "branch", "wood", "bark", "plant",
   "go", "gỗ", "cay", "cây", "than", "thân", "canh", "cành"]

def GLASS_KEYS : List String :=
  ["glass", "window", "glazing",
   "kinh", "kính", "cua_kinh", "cửa kính", "mat_kinh", "mặt kính",
   "vach_kinh", "vách kính"]

def ROAD_KEYS : List String :=
  ["road", "street", "avenue", "lane", "alley", "highway", "junction",
   "intersection", "crossing", "crosswalk", "roundabout", "parking",
   "parking_lot", "surfacearea", "roadarea", "pavement", "sidewalk",
   "walkway", "driveway", "kerb", "curb", "asphalt", "concrete",
   "duong", "đường", "pho", "phố", "ngo", "ngõ", "ngach", "ngách",
   "dai_lo", "đại lộ", "vach", "vạch", "bai_do", "bãi đỗ", "via_he",
   "vỉa hè", "loi_di", "lối đi", "be_tong", "bê tông", "nhua", "nhựa"]

/-- `name.lower().replace(" ", "_")`. -/
def normalizeName (name : String) : List Char :=
  (name.data.map pyLower).map (fun c => if c = ' ' then '_' else c)

/-- `any(k in n_norm for k in KEYS)`. -/
def containsAny (keys : List String) (n : List Char) : Bool :=
  keys.any (fun k => containsSub n k.data)

def pick_material (name : String) : String :=
  let nNorm := normalizeName name
  if containsAny WOOD_KEYS nNorm then "wood"
  else if containsAny GLASS_KEYS nNorm then "glass"
  else if containsAny ROAD_KEYS nNorm then "concrete"
  else "default"

/-! ## Surface preset table (`MATERIALS`, convert.py lines 19–24) -/

structure SurfacePreset where
  mu : ℚ
  mu2 : ℚ
  restitution : ℚ

/-- The float constants of the Python dict, modelled by the exact
rationals their decimal literals denote: `0.5 = mkRat 1 2`,
`1.0 = mkRat 1 1`, `0.2 = mkRat 1 5`, `0.05 = mkRat 1 20`,
`0.4 = mkRat 2 5`, `0.03 = mkRat 3 100`, `0.8 = mkRat 4 5`.  Python's
`str` on the corresponding doubles prints the shortest round-tripping
decimal, which recovers exactly these literals (see `floatStr`). -/
def MATERIALS : List (String × SurfacePreset) :=
  [("wood", ⟨mkRat 1 2, mkRat 1 2, mkRat 1 5⟩),
   ("concrete", ⟨mkRat 1 1, mkRat 1 1, mkRat 1 20⟩),
   ("glass", ⟨mkRat 2 5, mkRat 2 5, mkRat 3 100⟩),
   ("default", ⟨mkRat 4 5, mkRat 4 5, mkRat 1 20⟩)]

/-- Python `str()` of the float preset constants.  Every value in
`MATERIALS` is an exact non-negative multiple of 1/100, and `str` on such a
float prints its shortest decimal form: integer part, a dot, then the
hundredths with trailing zeros trimmed (but at least one digit). -/
def floatStr (q : ℚ) : String :=
  let v : Nat := q.num.toNat * 100 / q.den
  let ip := v / 100
  let fr := v % 100
  if fr = 0 then toString ip ++ ".0"
  else if fr % 10 = 0 then toString ip ++ "." ++ toString (fr / 10)
  else if fr < 10 then toString ip ++ ".0" ++ toString fr
  else toString ip ++ "." ++ toString fr

/-! ## Collision synthesizer (`_add_collision_for_visual`, lines 70–132) -/

/-- `vname = visual_el.get("name", "visual")` (convert.py line 72). -/
def visualNameOf (v : Xml) : String :=
  (v.attr "name").getD "visual"

/-- The `<surface>` block built at convert.py lines 109–126, as a function
of the material key.  `MATERIALS[mkey]` is a plain dict access; since
`_pick_material` only ever returns keys present in `MATERIALS`, the access
never faults, and the `getD` fallback is arbitrary. -/
def buildSurface (mkey : String) : Xml :=
  let preset := (MATERIALS.lookup mkey).getD ⟨0.8, 0.8, 0.05⟩
  Xml.el "surface" [] none
    [Xml.el "friction" [] none
      [Xml.el "ode" [] none
        ([Xml.el "mu" [] (some (floatStr preset.mu)) [],
          Xml.el "mu2" [] (some (floatStr preset.mu2)) []] ++
         (if mkey == "glass" then
            [Xml.el "slip1" [] (some "0.02") [],
             Xml.el "slip2" [] (some "0.02") []]
          else []))],
     Xml.el "bounce" [] none
      [Xml.el "restitution_coefficient" [] (some (floatStr preset.restitution)) [],
       Xml.el "threshold" [] (some "100.0") []],
     Xml.el "contact" [] none
      [Xml.el "ode" [] none
        [Xml.el "kp" [] (some "1e6") [],
         Xml.el "kd" [] (some "1.0") []]]]

/-- `_add_collision_for_visual(link_el, visual_el, existing_names, ...)`.

The Python function mutates `link_el` (child list) and `existing_names`
(a set) and returns a boolean; here it returns the updated child list, the
updated name collection, and that boolean.  The set is modelled as a
duplicate-free list grown by appending (elements are only added after a
membership test).  `list(link_el).index(visual_el)` locates `visual_el` by
object identity; at the sole call site (line 282) the visual is the child
just appended, so the insertion index `idx` equals the current length of
the child list and the insert is an append. -/
def add_collision_for_visual (linkChildren : List Xml) (visual : Xml)
    (existingNames : List String) (meshesFolderPrefix daeFilename : String) :
    List Xml × List String × Bool :=
  let vname := visualNameOf visual
  let colName := sanitize_name ("col_" ++ vname)
  if colName ∈ existingNames then (linkChildren, existingNames, false)
  else
    match visual.findChild "geometry" with
    | none => (linkChildren, existingNames, false)
    | some geom =>
      let geomBlock :=
        match geom.findChild "mesh" with
        | some mesh =>
          let uriText : Option String :=
            match mesh.findChild "uri" with
            | some uriEl => uriEl.text
            | none => some (meshesFolderPrefix ++ daeFilename)
          let submeshBlock : List Xml :=
            match mesh.findChild "submesh" with
            | some submesh =>
              let nameText : Option String :=
                match submesh.findChild "name" with
                | some nameNode => nameNode.text
                | none => some vname
              [Xml.el "submesh" [] none [Xml.el "name" [] nameText []]]
            | none => []
          Xml.el "geometry" [] none
            [Xml.el "mesh" [] none
              ([Xml.el "uri" [] uriText []] ++ submeshBlock)]
        | none => geom
      let collision :=
        Xml.el "collision" [("name", colName)] none
          [geomBlock, buildSurface (pick_material vname)]
      (linkChildren ++ [collision], existingNames ++ [colName], true)

/-! ## Document builder (`export_sdf`, convert.py lines 133–317) -/

def dae_filename : String := "model.dae"
def sdf_filename : String := "model.sdf"
def model_config_filename : String := "model.config"
def lightmap_filename : String := "LightmapBaked.png"
def model_name : String := "my_model"
def meshesFolderPrefix : String := "meshes/"

/-- What varies per mesh object in the export loop: the Blender object's
name, the staged diffuse-texture basename (`diffuse_map`, empty string when
absent, matching the Python truthiness test `if diffuse_map:`), and whether
the fixed-name lightmap file exists at the time the mesh is processed. -/
structure MeshEntry where
  name : String
  diffuseMap : String
  hasLightmap : Bool

/-- The `<visual>` element built at convert.py lines 223–277.  The
imperative sequence is: geometry subtree always; a material block with
diffuse/specular/pbr/metal/albedo_map only when a texture is staged; when
the lightmap file exists, a `light_map` element is appended inside the
(possibly freshly created, minimal) material/pbr/metal structure and a
`cast_shadows` element is appended to the visual. -/
def buildVisual (m : MeshEntry) : Xml :=
  let geometry :=
    Xml.el "geometry" [] none
      [Xml.el "mesh" [] none
        [Xml.el "uri" [] (some (meshesFolderPrefix ++ dae_filename)) [],
         Xml.el "submesh" [] none [Xml.el "name" [] (some m.name) []]]]
  let metalChildren :=
    (if m.diffuseMap ≠ "" then
       [Xml.el "albedo_map" [] (some (meshesFolderPrefix ++ m.diffuseMap)) []]
     else []) ++
    (if m.hasLightmap then
       [Xml.el "light_map" [("uv_set", "1")]
         (some (meshesFolderPrefix ++ lightmap_filename)) []]
     else [])
  let materialBlock : List Xml :=
    if m.diffuseMap ≠ "" then
      [Xml.el "material" [] none
        [Xml.el "diffuse" [] (some "1.0 1.0 1.0 1.0") [],
         Xml.el "specular" [] (some "0.0 0.0 0.0 1.0") [],
         Xml.el "pbr" [] none [Xml.el "metal" [] none metalChildren]]]
    else if m.hasLightmap then
      [Xml.el "material" [] none
        [Xml.el "pbr" [] none [Xml.el "metal" [] none metalChildren]]]
    else []
  let shadowBlock :=
    if m.hasLightmap then [Xml.el "cast_shadows" [] (some "0") []] else []
  Xml.el "visual" [("name", m.name)] none
    ([geometry] ++ materialBlock ++ shadowBlock)

/-- The per-mesh loop of `export_sdf` (lines 221–282): append the visual,
then invoke the collision synthesizer on it with the running name set. -/
def exportLoop : List MeshEntry → List Xml → List String → List Xml × List String
  | [], children, names => (children, names)
  | m :: rest, children, names =>
    let visual := buildVisual m
    let r := add_collision_for_visual (children ++ [visual]) visual names
      meshesFolderPrefix dae_filename
    exportLoop rest r.1 r.2.1

/-- Children of the single `<link>` element, for a given mesh list
(`existing_collision_names` starts empty, line 221). -/
def linkChildren (meshes : List MeshEntry) : List Xml :=
  (exportLoop meshes [] []).1

/-- Final name set after the loop. -/
def finalNames (meshes : List MeshEntry) : List String :=
  (exportLoop meshes [] []).2

/-- The scene document tree (`sdf` root, lines 209–218). -/
def export_sdf (meshes : List MeshEntry) : Xml :=
  Xml.el "sdf" [("version", "1.8")] none
    [Xml.el "model" [("name", model_name)] none
      [Xml.el "static" [] (some "true") [],
       Xml.el "link" [("name", "testlink")] none (linkChildren meshes)]]

/-- The manifest document tree (`model.config`, lines 297–306). -/
def model_config : Xml :=
  Xml.el "model" [] none
    [Xml.el "name" [] (some model_name) [],
     Xml.el "version" [] (some "1.0") [],
     Xml.el "sdf" [("version", "1.8")] (some sdf_filename) [],
     Xml.el "author" [] none
       [Xml.el "name" [] (some "Generated by blender SDF tools") []]]

/-! ## Derived observation functions used by the statements -/

/-- Names of the collision elements of a child list, in document order. -/
def collisionNamesOf (l : List Xml) : List String :=
  (l.filter (fun x => x.tag == "collision")).map (fun x => (x.attr "name").getD "")

/-- `^[A-Za-z_][0-9A-Za-z_]*$`. -/
def isValidIdent (l : List Char) : Bool :=
  match l with
  | [] => false
  | c :: rest => (c.isAlpha || c == '_') && rest.all isWordChar

/-- The ordering invariant of the link's children: a sequence of visuals,
each optionally followed immediately by its own collision (whose name is
the sanitized `col_`-prefixed form of that visual's name). -/
inductive Paired : List Xml → Prop where
  | nil : Paired []
  | vis (v : Xml) (rest : List Xml) (hv : v.tag = "visual") (h : Paired rest) :
      Paired (v :: rest)
  | visCol (v c : Xml) (rest : List Xml) (hv : v.tag = "visual")
      (hc : c.tag = "collision")
      (hname : c.attr "name" = some (sanitize_name ("col_" ++ visualNameOf v)))
      (h : Paired rest) : Paired (v :: c :: rest)

/-! ## Lemmas about the sanitizer -/

theorem dropWhile_append_cons (p : Char → Bool) (xs : List Char) (y : Char)
    (ys : List Char) (hy : p y = false) :
    (xs ++ y :: ys).dropWhile p = xs.dropWhile p ++ y :: ys := by
  induction xs with
  | nil => simp [List.dropWhile_cons, hy]
  | cons a as ih =>
    by_cases ha : p a = true
    · simp [List.dropWhile_cons, ha, ih]
    · simp [List.dropWhile_cons, ha]

theorem pyStrip_col (t : List Char) :
    pyStrip ('c' :: 'o' :: 'l' :: '_' :: t) =
      'c' :: 'o' :: 'l' :: '_' :: (t.reverse.dropWhile pySpace).reverse := by
  unfold pyStrip
  have h1 : ('c' :: 'o' :: 'l' :: '_' :: t).dropWhile pySpace
      = 'c' :: 'o' :: 'l' :: '_' :: t :=
    List.dropWhile_cons_of_neg (by decide)
  have h2 : ('c' :: 'o' :: 'l' :: '_' :: t).reverse = t.reverse ++ '_' :: ['l', 'o', 'c'] := by
    simp
  rw [h1, h2, dropWhile_append_cons _ _ _ _ (by decide)]
  simp

theorem collapseAux_cons_word (b : Bool) (c : Char) (l : List Char)
    (h : isWordChar c = true) :
    collapseAux b (c :: l) = c :: collapseAux false l := by
  simp [collapseAux, h]

theorem sanitizeList_col (t : List Char) :
    sanitizeList ('c' :: 'o' :: 'l' :: '_' :: t) =
      'c' :: 'o' :: 'l' :: '_' ::
        collapseAux false ((t.reverse.dropWhile pySpace).reverse) := by
  unfold sanitizeList
  rw [pyStrip_col, collapse, collapseAux_cons_word _ _ _ (by decide),
    collapseAux_cons_word _ _ _ (by decide), collapseAux_cons_word _ _ _ (by decide),
    collapseAux_cons_word _ _ _ (by decide)]
  simp

theorem collapseAux_mem_word (l : List Char) :
    ∀ (b : Bool) (c : Char), c ∈ collapseAux b l → isWordChar c = true := by
  induction l with
  | nil => intro b c h; simp [collapseAux] at h
  | cons a as ih =>
    intro b c h
    by_cases ha : isWordChar a = true
    · rw [collapseAux_cons_word _ _ _ ha] at h
      rcases List.mem_cons.mp h with rfl | h'
      · exact ha
      · exact ih false c h'
    · cases b with
      | true =>
        simp only [collapseAux, ha, Bool.false_eq_true, if_false, if_true] at h
        exact ih true c h
      | false =>
        simp only [collapseAux, ha, Bool.false_eq_true, if_false] at h
        rcases List.mem_cons.mp h with rfl | h'
        · decide
        · exact ih true c h'

theorem collapseAux_true_of_all_bad (l : List Char)
    (h : ∀ c ∈ l, isWordChar c = false) : collapseAux true l = [] := by
  induction l with
  | nil => rfl
  | cons a as ih =>
    have ha : isWordChar a = false := h a (List.mem_cons_self a as)
    simp only [collapseAux, ha, Bool.false_eq_true, if_false, if_true]
    exact ih (fun c hc => h c (List.mem_cons_of_mem a hc))

theorem dropWhile_eq_self_of_all_neg (p : Char → Bool) (l : List Char)
    (h : ∀ c ∈ l, p c = false) : l.dropWhile p = l := by
  cases l with
  | nil => rfl
  | cons a as =>
    exact List.dropWhile_cons_of_neg (by simp [h a (List.mem_cons_self a as)])

theorem pyStrip_eq_self_of_no_ws (l : List Char)
    (h : ∀ c ∈ l, pySpace c = false) : pyStrip l = l := by
  unfold pyStrip
  rw [dropWhile_eq_self_of_all_neg _ _ h,
    dropWhile_eq_self_of_all_neg _ _ (fun c hc => h c (List.mem_reverse.mp hc))]
  simp

@[simp] theorem data_mk (l : List Char) : (⟨l⟩ : String).data = l := rfl

theorem string_mk_eq_empty (a : List Char) : ((⟨a⟩ : String) = "") ↔ a = [] := by
  constructor
  · intro h
    have := congrArg String.data h
    simpa using this
  · intro h
    rw [h]

theorem collapse_cons (a : Char) (as : List Char) :
    collapse (a :: as) =
      if isWordChar a then a :: collapseAux false as else '_' :: collapseAux true as := by
  rw [collapse]
  by_cases h : isWordChar a = true <;> simp [collapseAux, h]

/-! ## Claims C1, C2, C10 -/

/-- C1 counterexample: for the mesh named `"123-Wall!!"`, the collision
identifier the code produces is `"col_123_Wall_"`, not `"n_123_Wall_"` as
the claim states: the candidate is `col_<name>` and is sanitized after the
`col_` prefix is attached, so the digit guard never fires. -/
theorem c1_counterexample :
    collisionNamesOf (linkChildren [⟨"123-Wall!!", "", false⟩]) = ["col_123_Wall_"] ∧
    ("col_123_Wall_" : String) ≠ "n_123_Wall_" := by
  constructor
  · rfl
  · decide

/-- C1 (amended): for a mesh named `"123-Wall!!"`, the link holds the
(unsanitized) visual named `"123-Wall!!"` followed by its collision whose
sanitized identifier is `"col_123_Wall_"` (punctuation collapsed; the
leading-digit guard is not involved because the candidate starts with
`col_`). -/
theorem c1_collision_identifier :
    (linkChildren [⟨"123-Wall!!", "", false⟩]).map (fun x => x.attr "name") =
      [some "123-Wall!!", some "col_123_Wall_"] := by
  rfl

/-- C2 counterexample: on an all-whitespace input the sanitizer returns the
empty string (the digit guard only fires on a nonempty result), and on an
input of only punctuation it returns `"_"` with no `n_` prefix — in both
cases the output is not `"n_"` prefixed as the claim states. -/
theorem c2_counterexample :
    sanitize_name " " = "" ∧ sanitize_name "!!" = "_" := by
  constructor <;> rfl

/-- C2 (amended): the sanitizer strips whitespace, replaces each maximal
run of characters outside `[0-9A-Za-z_]` with one underscore, and prepends
`n_` only when the result is nonempty and starts with a digit.  It never
fails, but the output is empty exactly when the input strips to empty
(e.g. all whitespace); a nonempty output always matches
`^[A-Za-z_][0-9A-Za-z_]*$`; and an input of only non-word, non-whitespace
characters yields `"_"`, not an `n_`-prefixed string. -/
theorem c2_sanitizer_total (s : String) :
    (sanitize_name s = "" ↔ pyStrip s.data = []) ∧
    (sanitize_name s ≠ "" → isValidIdent (sanitize_name s).data = true) ∧
    ((∀ c ∈ s.data, isWordChar c = false ∧ pySpace c = false) →
      s.data ≠ [] → sanitize_name s = "_") := by
  refine ⟨?_, ?_, ?_⟩
  · rw [sanitize_name, string_mk_eq_empty]
    unfold sanitizeList
    cases h : pyStrip s.data with
    | nil => simp [collapse, collapseAux]
    | cons a as =>
      rw [collapse_cons]
      by_cases ha : isWordChar a = true <;> simp only [ha, if_true,
        Bool.false_eq_true, if_false] <;> constructor <;> intro hh <;>
        first
          | (split at hh <;> simp_all)
          | simp_all
  · intro hne
    have hne' : sanitizeList s.data ≠ [] := by
      intro hh
      apply hne
      rw [sanitize_name, string_mk_eq_empty]
      exact hh
    rw [sanitize_name, data_mk]
    unfold sanitizeList at hne' ⊢
    cases hc : collapse (pyStrip s.data) with
    | nil => rw [hc] at hne'; simp at hne'
    | cons a as =>
      have hword : ∀ c ∈ a :: as, isWordChar c = true := by
        intro c hcmem
        exact collapseAux_mem_word _ false c (hc ▸ hcmem)
      have haw : isWordChar a = true := hword a (List.mem_cons_self a as)
      have hasw : as.all isWordChar = true :=
        List.all_eq_true.mpr (fun c hcmem => hword c (List.mem_cons_of_mem a hcmem))
      by_cases hd : a.isDigit = true
      · simp only [hd, if_true]
        unfold isValidIdent
        simp only [List.all_cons, hasw, haw]
        decide
      · simp only [hd, Bool.false_eq_true, if_false]
        unfold isValidIdent
        have halpha : (a.isAlpha || a == '_') = true := by
          simp only [isWordChar, Char.isAlphanum] at haw
          rcases Bool.or_eq_true_iff.mp haw with h1 | h2
          · rcases Bool.or_eq_true_iff.mp h1 with h3 | h4
            · simp [h3]
            · exact absurd h4 hd
          · simp [h2]
        simp [halpha, hasw]
  · intro hbad hne
    have hnw : ∀ c ∈ s.data, pySpace c = false := fun c hc => (hbad c hc).2
    have hword : ∀ c ∈ s.data, isWordChar c = false := fun c hc => (hbad c hc).1
    rw [sanitize_name]
    unfold sanitizeList
    rw [pyStrip_eq_self_of_no_ws _ hnw]
    cases hl : s.data with
    | nil => exact absurd hl hne
    | cons a as =>
      have ha : isWordChar a = false := by
        apply hword
        rw [hl]
        exact List.mem_cons_self a as
      rw [collapse_cons, ha]
      simp only [Bool.false_eq_true, if_false]
      rw [collapseAux_true_of_all_bad as (by
        intro c hc
        apply hword
        rw [hl]
        exact List.mem_cons_of_mem a hc)]
      rfl

/-- C2 witness. -/
theorem c2_sanitizer_total_witness :
    isValidIdent (sanitize_name "ab!c").data = true ∧ sanitize_name "??" = "_" :=
  ⟨(c2_sanitizer_total "ab!c").2.1 (by decide),
   (c2_sanitizer_total "??").2.2 (by decide) (by decide)⟩

/-! ## Shape lemmas for the collision synthesizer -/

theorem addc_of_mem (ch : List Xml) (v : Xml) (ns : List String) (p d : String)
    (hmem : sanitize_name ("col_" ++ visualNameOf v) ∈ ns) :
    add_collision_for_visual ch v ns p d = (ch, ns, false) := by
  unfold add_collision_for_visual
  rw [if_pos hmem]

theorem addc_of_no_geometry (ch : List Xml) (v : Xml) (ns : List String) (p d : String)
    (hmem : sanitize_name ("col_" ++ visualNameOf v) ∉ ns)
    (hg : v.findChild "geometry" = none) :
    add_collision_for_visual ch v ns p d = (ch, ns, false) := by
  unfold add_collision_for_visual
  rw [if_neg hmem, hg]

theorem addc_success (ch : List Xml) (v : Xml) (ns : List String) (p d : String)
    (hmem : sanitize_name ("col_" ++ visualNameOf v) ∉ ns)
    (g : Xml) (hg : v.findChild "geometry" = some g) :
    ∃ col : Xml,
      add_collision_for_visual ch v ns p d =
        (ch ++ [col], ns ++ [sanitize_name ("col_" ++ visualNameOf v)], true) ∧
      col.tag = "collision" ∧
      col.attr "name" = some (sanitize_name ("col_" ++ visualNameOf v)) := by
  unfold add_collision_for_visual
  rw [if_neg hmem, hg]
  exact ⟨_, rfl, rfl, rfl⟩

/-- C10: every collision identifier the synthesizer produces is
`sanitize("col_" + visual name)`; because the candidate starts with the
non-digit, whitespace-free prefix `col_`, the sanitizer's `n_` digit guard
never fires on it (the result is exactly the strip-and-collapse of the
candidate) and the identifier always begins with `col_`. -/
theorem collision_identifier_shape :
    (∀ s : String,
      sanitize_name ("col_" ++ s) = ⟨collapse (pyStrip ("col_" ++ s).data)⟩ ∧
      "col_".data <+: (sanitize_name ("col_" ++ s)).data) ∧
    (∀ (ch : List Xml) (v : Xml) (ns : List String) (p d : String),
      (add_collision_for_visual ch v ns p d).2.2 = true →
      ((add_collision_for_visual ch v ns p d).1.getLast?).bind (fun c => c.attr "name") =
        some (sanitize_name ("col_" ++ visualNameOf v))) := by
  constructor
  · intro s
    have hdata : ("col_" ++ s).data = 'c' :: 'o' :: 'l' :: '_' :: s.data := rfl
    have hcollapse :
        collapse (pyStrip ("col_" ++ s).data) =
          'c' :: 'o' :: 'l' :: '_' ::
            collapseAux false ((s.data.reverse.dropWhile pySpace).reverse) := by
      rw [hdata, pyStrip_col, collapse, collapseAux_cons_word _ _ _ (by decide),
        collapseAux_cons_word _ _ _ (by decide), collapseAux_cons_word _ _ _ (by decide),
        collapseAux_cons_word _ _ _ (by decide)]
    have hsan :
        sanitize_name ("col_" ++ s) =
          ⟨'c' :: 'o' :: 'l' :: '_' ::
            collapseAux false ((s.data.reverse.dropWhile pySpace).reverse)⟩ := by
      rw [sanitize_name, hdata, sanitizeList_col]
    constructor
    · rw [hsan, hcollapse]
    · rw [hsan]
      exact ⟨_, rfl⟩
  · intro ch v ns p d hsuc
    by_cases hmem : sanitize_name ("col_" ++ visualNameOf v) ∈ ns
    · rw [addc_of_mem ch v ns p d hmem] at hsuc
      simp at hsuc
    · cases hg : v.findChild "geometry" with
      | none =>
        rw [addc_of_no_geometry ch v ns p d hmem hg] at hsuc
        simp at hsuc
      | some g =>
        obtain ⟨col, heq, _, hcname⟩ := addc_success ch v ns p d hmem g hg
        rw [heq]
        simp [hcname]

/-- C10 witness. -/
theorem collision_identifier_shape_witness :
    ((add_collision_for_visual [] (buildVisual ⟨"Box", "", false⟩) []
        "meshes/" "model.dae").1.getLast?).bind (fun c => c.attr "name") =
      some (sanitize_name ("col_" ++ visualNameOf (buildVisual ⟨"Box", "", false⟩))) :=
  collision_identifier_shape.2 [] (buildVisual ⟨"Box", "", false⟩) []
    "meshes/" "model.dae" (by rfl)

/-! ## Claims C3 and C7 -/

theorem pick_material_cases (name : String) :
    pick_material name = "wood" ∨ pick_material name = "glass" ∨
    pick_material name = "concrete" ∨ pick_material name = "default" := by
  simp only [pick_material]
  split_ifs <;> simp

/-- C3: the classifier normalizes the name by lower-casing and replacing
spaces with underscores, then tests the wood, glass and road keyword sets
in that fixed order by substring containment, with `default` as the total
fallback; in particular a name containing a wood keyword is classified
`wood` no matter which other sets also match. -/
theorem classifier_priority (name : String) :
    (containsAny WOOD_KEYS (normalizeName name) = true → pick_material name = "wood") ∧
    (containsAny WOOD_KEYS (normalizeName name) = false →
      containsAny GLASS_KEYS (normalizeName name) = true →
      pick_material name = "glass") ∧
    (containsAny WOOD_KEYS (normalizeName name) = false →
      containsAny GLASS_KEYS (normalizeName name) = false →
      containsAny ROAD_KEYS (normalizeName name) = true →
      pick_material name = "concrete") ∧
    (containsAny WOOD_KEYS (normalizeName name) = false →
      containsAny GLASS_KEYS (normalizeName name) = false →
      containsAny ROAD_KEYS (normalizeName name) = false →
      pick_material name = "default") := by
  simp only [pick_material]
  refine ⟨?_, ?_, ?_, ?_⟩ <;> intros <;> simp [*]

/-- C3 witness: `"Wood Glass"` contains both a wood keyword and a glass
keyword after normalization and is classified as wood. -/
theorem classifier_priority_witness :
    containsAny GLASS_KEYS (normalizeName "Wood Glass") = true ∧
    pick_material "Wood Glass" = "wood" :=
  ⟨by decide, (classifier_priority "Wood Glass").1 (by decide)⟩

/-- C7: for every synthesized collision the surface block carries the
static per-category preset (wood: mu = mu2 = 0.5, restitution = 0.2;
concrete: 1.0/1.0/0.05; glass: 0.4/0.4/0.03; default: 0.8/0.8/0.05);
`slip1`/`slip2` (value 0.02) are present exactly when the category is
glass; and kp = 1e6, kd = 1.0 and bounce threshold = 100.0 are emitted
identically for every category. -/
theorem surface_presets (name : String) :
    textAt (buildSurface (pick_material name)) ["contact", "ode", "kp"] = some "1e6" ∧
    textAt (buildSurface (pick_material name)) ["contact", "ode", "kd"] = some "1.0" ∧
    textAt (buildSurface (pick_material name)) ["bounce", "threshold"] = some "100.0" ∧
    ((getPath (buildSurface (pick_material name)) ["friction", "ode", "slip1"]).isSome = true ↔
      pick_material name = "glass") ∧
    ((getPath (buildSurface (pick_material name)) ["friction", "ode", "slip2"]).isSome = true ↔
      pick_material name = "glass") ∧
    (pick_material name = "glass" →
      textAt (buildSurface (pick_material name)) ["friction", "ode", "slip1"] = some "0.02" ∧
      textAt (buildSurface (pick_material name)) ["friction", "ode", "slip2"] = some "0.02") ∧
    (pick_material name = "wood" →
      textAt (buildSurface (pick_material name)) ["friction", "ode", "mu"] = some "0.5" ∧
      textAt (buildSurface (pick_material name)) ["friction", "ode", "mu2"] = some "0.5" ∧
      textAt (buildSurface (pick_material name)) ["bounce", "restitution_coefficient"] =
        some "0.2") ∧
    (pick_material name = "concrete" →
      textAt (buildSurface (pick_material name)) ["friction", "ode", "mu"] = some "1.0" ∧
      textAt (buildSurface (pick_material name)) ["friction", "ode", "mu2"] = some "1.0" ∧
      textAt (buildSurface (pick_material name)) ["bounce", "restitution_coefficient"] =
        some "0.05") ∧
    (pick_material name = "glass" →
      textAt (buildSurface (pick_material name)) ["friction", "ode", "mu"] = some "0.4" ∧
      textAt (buildSurface (pick_material name)) ["friction", "ode", "mu2"] = some "0.4" ∧
      textAt (buildSurface (pick_material name)) ["bounce", "restitution_coefficient"] =
        some "0.03") ∧
    (pick_material name = "default" →
      textAt (buildSurface (pick_material name)) ["friction", "ode", "mu"] = some "0.8" ∧
      textAt (buildSurface (pick_material name)) ["friction", "ode", "mu2"] = some "0.8" ∧
      textAt (buildSurface (pick_material name)) ["bounce", "restitution_coefficient"] =
        some "0.05") ∧
    MATERIALS.lookup "wood" = some ⟨0.5, 0.5, 0.2⟩ ∧
    MATERIALS.lookup "concrete" = some ⟨1.0, 1.0, 0.05⟩ ∧
    MATERIALS.lookup "glass" = some ⟨0.4, 0.4, 0.03⟩ ∧
    MATERIALS.lookup "default" = some ⟨0.8, 0.8, 0.05⟩ := by
  rcases pick_material_cases name with h | h | h | h <;> rw [h] <;>
    refine ⟨by decide, by decide, by decide, by decide, by decide, by decide, by decide,
      by decide, by decide, by decide, ?_, ?_, ?_, ?_⟩ <;>
    · simp [MATERIALS, List.lookup]
      norm_num [Rat.mkRat_eq_div]

/-- C7 witness: a mesh name classified as glass carries the glass preset
with slip parameters. -/
theorem surface_presets_witness :
    textAt (buildSurface (pick_material "window_pane")) ["friction", "ode", "slip1"] =
        some "0.02" ∧
    textAt (buildSurface (pick_material "window_pane")) ["friction", "ode", "mu"] =
        some "0.4" :=
  ⟨((surface_presets "window_pane").2.2.2.2.2.1 (by decide)).1,
   ((surface_presets "window_pane").2.2.2.2.2.2.2.2.1 (by decide)).1⟩

/-! ## Lemmas about the export loop -/

theorem visualNameOf_buildVisual (m : MeshEntry) :
    visualNameOf (buildVisual m) = m.name := rfl

theorem tag_buildVisual (m : MeshEntry) : (buildVisual m).tag = "visual" := rfl

theorem findChild_geometry_buildVisual (m : MeshEntry) :
    ∃ g, (buildVisual m).findChild "geometry" = some g :=
  ⟨_, rfl⟩

theorem addc_shift (ch : List Xml) (v : Xml) (ns : List String) (p d : String) :
    add_collision_for_visual ch v ns p d =
      (ch ++ (add_collision_for_visual [] v ns p d).1,
       (add_collision_for_visual [] v ns p d).2) := by
  unfold add_collision_for_visual
  by_cases hmem : sanitize_name ("col_" ++ visualNameOf v) ∈ ns
  · simp [hmem]
  · simp only [if_neg hmem]
    cases hg : v.findChild "geometry" with
    | none => simp
    | some g => simp

theorem exportLoop_shift (meshes : List MeshEntry) :
    ∀ (ch : List Xml) (ns : List String),
      exportLoop meshes ch ns =
        (ch ++ (exportLoop meshes [] ns).1, (exportLoop meshes [] ns).2) := by
  induction meshes with
  | nil => intro ch ns; simp [exportLoop]
  | cons m rest ih =>
    intro ch ns
    simp only [exportLoop]
    rw [addc_shift (ch ++ [buildVisual m]), addc_shift ([] ++ [buildVisual m])]
    dsimp only
    rw [ih, ih ((([] ++ [buildVisual m]) ++
      (add_collision_for_visual [] (buildVisual m) ns meshesFolderPrefix dae_filename).1))]
    simp

theorem collisionNamesOf_cons_vis (v : Xml) (l : List Xml)
    (h : (v.tag == "collision") = false) :
    collisionNamesOf (v :: l) = collisionNamesOf l := by
  simp [collisionNamesOf, List.filter_cons, h]

theorem collisionNamesOf_cons_col (c : Xml) (l : List Xml)
    (h : (c.tag == "collision") = true) :
    collisionNamesOf (c :: l) = ((c.attr "name").getD "") :: collisionNamesOf l := by
  simp [collisionNamesOf, List.filter_cons, h]

theorem exportLoop_invariant (meshes : List MeshEntry) :
    ∀ ns : List String,
      (exportLoop meshes [] ns).2 = ns ++ collisionNamesOf (exportLoop meshes [] ns).1 ∧
      (ns.Nodup → (exportLoop meshes [] ns).2.Nodup) ∧
      Paired (exportLoop meshes [] ns).1 := by
  induction meshes with
  | nil =>
    intro ns
    refine ⟨by simp [exportLoop, collisionNamesOf], fun h => by simpa [exportLoop] using h, ?_⟩
    simp only [exportLoop]
    exact Paired.nil
  | cons m rest ih =>
    intro ns
    have hstep : exportLoop (m :: rest) [] ns =
        exportLoop rest
          (add_collision_for_visual ([] ++ [buildVisual m]) (buildVisual m) ns
            meshesFolderPrefix dae_filename).1
          (add_collision_for_visual ([] ++ [buildVisual m]) (buildVisual m) ns
            meshesFolderPrefix dae_filename).2.1 := by
      simp only [exportLoop]
    by_cases hmem : sanitize_name ("col_" ++ visualNameOf (buildVisual m)) ∈ ns
    · rw [hstep, addc_of_mem _ _ _ _ _ hmem]
      dsimp only
      rw [exportLoop_shift rest ([] ++ [buildVisual m]) ns]
      obtain ⟨h1, h2, h3⟩ := ih ns
      refine ⟨?_, fun h => h2 h, ?_⟩
      · dsimp only
        simp only [List.nil_append, List.singleton_append, List.cons_append]
        rw [collisionNamesOf_cons_vis _ _ (by rw [tag_buildVisual m]; decide)]
        exact h1
      · dsimp only
        simp only [List.nil_append, List.singleton_append, List.cons_append]
        exact Paired.vis _ _ (tag_buildVisual m) h3
    · obtain ⟨g, hg⟩ := findChild_geometry_buildVisual m
      obtain ⟨col, heq, hctag, hcname⟩ :=
        addc_success ([] ++ [buildVisual m]) (buildVisual m) ns
          meshesFolderPrefix dae_filename hmem g hg
      rw [hstep, heq]
      dsimp only
      rw [exportLoop_shift rest (([] ++ [buildVisual m]) ++ [col])
        (ns ++ [sanitize_name ("col_" ++ visualNameOf (buildVisual m))])]
      obtain ⟨h1, h2, h3⟩ :=
        ih (ns ++ [sanitize_name ("col_" ++ visualNameOf (buildVisual m))])
      refine ⟨?_, ?_, ?_⟩
      · dsimp only
        rw [h1]
        simp only [List.nil_append, List.append_assoc, List.singleton_append, List.cons_append]
        rw [collisionNamesOf_cons_vis _ _ (by rw [tag_buildVisual m]; decide),
          collisionNamesOf_cons_col _ _ (by rw [hctag]; decide), hcname]
        simp
      · intro hns
        apply h2
        rw [List.nodup_append]
        refine ⟨hns, List.nodup_singleton _, ?_⟩
        intro a ha hb
        rw [List.mem_singleton] at hb
        exact hmem (hb ▸ ha)
      · dsimp only
        simp only [List.nil_append, List.append_assoc, List.singleton_append, List.cons_append]
        exact Paired.visCol _ _ _ (tag_buildVisual m) hctag hcname h3

theorem Paired.position {l : List Xml} (hp : Paired l) :
    ∀ (i : Nat) (x : Xml), l[i]? = some x → x.tag = "collision" →
      0 < i ∧ ∃ v : Xml, l[i - 1]? = some v ∧ v.tag = "visual" ∧
        x.attr "name" = some (sanitize_name ("col_" ++ visualNameOf v)) := by
  induction hp with
  | nil => intro i x hx _; simp at hx
  | vis v rest hv _ ih =>
    intro i x hx hcol
    cases i with
    | zero =>
      rw [List.getElem?_cons_zero] at hx
      injection hx with hx
      rw [← hx, hv] at hcol
      simp at hcol
    | succ j =>
      rw [List.getElem?_cons_succ] at hx
      obtain ⟨hj, w, hw, hwt, hwn⟩ := ih j x hx hcol
      refine ⟨Nat.succ_pos j, w, ?_, hwt, hwn⟩
      obtain ⟨k, rfl⟩ : ∃ k, j = k + 1 := ⟨j - 1, by omega⟩
      simpa using hw
  | visCol v c rest hv hc hname _ ih =>
    intro i x hx hcol
    cases i with
    | zero =>
      rw [List.getElem?_cons_zero] at hx
      injection hx with hx
      rw [← hx, hv] at hcol
      simp at hcol
    | succ j =>
      cases j with
      | zero =>
        rw [List.getElem?_cons_succ, List.getElem?_cons_zero] at hx
        injection hx with hx
        refine ⟨Nat.one_pos, v, by simp, hv, ?_⟩
        rw [← hx]
        exact hname
      | succ k =>
        rw [List.getElem?_cons_succ, List.getElem?_cons_succ] at hx
        obtain ⟨hk, w, hw, hwt, hwn⟩ := ih k x hx hcol
        refine ⟨by omega, w, ?_, hwt, hwn⟩
        obtain ⟨k2, rfl⟩ : ∃ k2, k = k2 + 1 := ⟨k - 1, by omega⟩
        simpa using hw

/-! ## Claims C4, C5, C6 -/

/-- C4: in the output link no two collision identifiers are equal; the
synthesizer's dedupe guard returns without creating anything when the
sanitized candidate is already among the existing names, so of two mesh
names sanitizing to the same collision identifier only the first receives
a collision descriptor. -/
theorem collision_names_unique (meshes : List MeshEntry) (ch : List Xml) (v : Xml)
    (ns : List String) (p d : String) :
    (collisionNamesOf (linkChildren meshes)).Nodup ∧
    (sanitize_name ("col_" ++ visualNameOf v) ∈ ns →
      add_collision_for_visual ch v ns p d = (ch, ns, false)) := by
  constructor
  · obtain ⟨h1, h2, _⟩ := exportLoop_invariant meshes []
    have hnd : (exportLoop meshes [] []).2.Nodup := h2 List.nodup_nil
    rw [h1] at hnd
    simpa [linkChildren] using hnd
  · intro hmem
    exact addc_of_mem ch v ns p d hmem

/-- C4 witness: `"A-"` and `"A!"` both sanitize to collision identifier
`col_A_`; with that name already present, the synthesizer adds nothing. -/
theorem collision_names_unique_witness :
    (collisionNamesOf (linkChildren [⟨"A-", "", false⟩, ⟨"A!", "", false⟩])).Nodup ∧
    add_collision_for_visual [] (Xml.el "visual" [("name", "A!")] none []) ["col_A_"]
      "meshes/" "model.dae" = ([], ["col_A_"], false) :=
  ⟨(collision_names_unique [⟨"A-", "", false⟩, ⟨"A!", "", false⟩] []
      (Xml.el "visual" [("name", "A!")] none []) ["col_A_"] "meshes/" "model.dae").1,
   (collision_names_unique [⟨"A-", "", false⟩, ⟨"A!", "", false⟩] []
      (Xml.el "visual" [("name", "A!")] none []) ["col_A_"] "meshes/" "model.dae").2
     (by decide)⟩

/-- C5: in the link's ordered child sequence, every collision descriptor
occupies the position immediately following its own visual (the one whose
sanitized `col_`-name it carries), for every input mesh list. -/
theorem collision_follows_visual (meshes : List MeshEntry) (i : Nat) (x : Xml)
    (hx : (linkChildren meshes)[i]? = some x) (hcol : x.tag = "collision") :
    0 < i ∧ ∃ v : Xml, (linkChildren meshes)[i - 1]? = some v ∧ v.tag = "visual" ∧
      x.attr "name" = some (sanitize_name ("col_" ++ visualNameOf v)) :=
  (exportLoop_invariant meshes []).2.2.position i x hx hcol

/-- C5 witness. -/
theorem collision_follows_visual_witness :
    0 < 1 ∧ ∃ v : Xml, (linkChildren [⟨"Box", "", false⟩])[1 - 1]? = some v ∧
      v.tag = "visual" ∧
      (((linkChildren [⟨"Box", "", false⟩])[1]?).getD (Xml.el "x" [] none [])).attr "name" =
        some (sanitize_name ("col_" ++ visualNameOf v)) :=
  collision_follows_visual [⟨"Box", "", false⟩] 1
    (((linkChildren [⟨"Box", "", false⟩])[1]?).getD (Xml.el "x" [] none []))
    (by rfl) (by rfl)

/-- C6: collision synthesis leaves the name set and the link children
untouched whenever it creates nothing — which happens exactly when the
sanitized candidate is a duplicate or the visual has no geometry child —
and it registers the new name exactly on success; the export loop always
continues with the remaining meshes regardless of the outcome. -/
theorem collision_failure_behavior (ch : List Xml) (v : Xml) (ns : List String)
    (p d : String) :
    ((add_collision_for_visual ch v ns p d).2.2 = false ↔
      (sanitize_name ("col_" ++ visualNameOf v) ∈ ns ∨ v.findChild "geometry" = none)) ∧
    ((add_collision_for_visual ch v ns p d).2.2 = false →
      (add_collision_for_visual ch v ns p d).1 = ch ∧
      (add_collision_for_visual ch v ns p d).2.1 = ns) ∧
    ((add_collision_for_visual ch v ns p d).2.2 = true →
      (add_collision_for_visual ch v ns p d).2.1 =
        ns ++ [sanitize_name ("col_" ++ visualNameOf v)]) ∧
    (∀ (m : MeshEntry) (rest : List MeshEntry) (ch2 : List Xml) (ns2 : List String),
      exportLoop (m :: rest) ch2 ns2 =
        exportLoop rest
          (add_collision_for_visual (ch2 ++ [buildVisual m]) (buildVisual m) ns2
            meshesFolderPrefix dae_filename).1
          (add_collision_for_visual (ch2 ++ [buildVisual m]) (buildVisual m) ns2
            meshesFolderPrefix dae_filename).2.1) := by
  by_cases hmem : sanitize_name ("col_" ++ visualNameOf v) ∈ ns
  · rw [addc_of_mem ch v ns p d hmem]
    refine ⟨?_, ?_, ?_, ?_⟩
    · simp [hmem]
    · intro _; exact ⟨rfl, rfl⟩
    · intro h; simp at h
    · intro m rest ch2 ns2; simp [exportLoop]
  · cases hg : v.findChild "geometry" with
    | none =>
      rw [addc_of_no_geometry ch v ns p d hmem hg]
      refine ⟨?_, ?_, ?_, ?_⟩
      · simp
      · intro _; exact ⟨rfl, rfl⟩
      · intro h; simp at h
      · intro m rest ch2 ns2; simp [exportLoop]
    | some g =>
      obtain ⟨col, heq, _, _⟩ := addc_success ch v ns p d hmem g hg
      rw [heq]
      refine ⟨?_, ?_, ?_, ?_⟩
      · simp [hmem, hg]
      · intro h; simp at h
      · intro _; rfl
      · intro m rest ch2 ns2; simp [exportLoop]

/-- C6 witness: a visual without a geometry child is skipped for collision
only, leaving children and names unchanged. -/
theorem collision_failure_behavior_witness :
    (add_collision_for_visual [] (Xml.el "visual" [("name", "v")] none []) []
        "meshes/" "model.dae").1 = [] ∧
    (add_collision_for_visual [] (Xml.el "visual" [("name", "v")] none []) []
        "meshes/" "model.dae").2.1 = [] :=
  (collision_failure_behavior [] (Xml.el "visual" [("name", "v")] none []) []
    "meshes/" "model.dae").2.1 (by rfl)

/-! ## Claims C8 and C9 -/

/-- C8: a visual carries a material block iff the mesh has a staged
diffuse texture or the lightmap file is present; when the lightmap is
present, a `light_map` reference appears under the material's `pbr/metal`
structure (a minimal material being synthesized first if there was no
diffuse texture) and `cast_shadows` is set to `0` on the visual; with no
lightmap, no light-map block and no cast-shadows element are emitted. -/
theorem material_and_lightmap (m : MeshEntry) :
    (((buildVisual m).findChild "material").isSome = true ↔
      (m.diffuseMap ≠ "" ∨ m.hasLightmap = true)) ∧
    (m.hasLightmap = true →
      textAt (buildVisual m) ["material", "pbr", "metal", "light_map"] =
        some (meshesFolderPrefix ++ lightmap_filename) ∧
      textAt (buildVisual m) ["cast_shadows"] = some "0") ∧
    (m.hasLightmap = false →
      getPath (buildVisual m) ["material", "pbr", "metal", "light_map"] = none ∧
      (buildVisual m).findChild "cast_shadows" = none) := by
  obtain ⟨nm, dm, hl⟩ := m
  by_cases hd : dm = "" <;> cases hl <;>
    simp [buildVisual, hd, Xml.findChild, textAt, getPath, List.find?]

/-- C8 witness: a mesh with no diffuse texture but a present lightmap gets
a minimal material with the light-map reference and shadows turned off. -/
theorem material_and_lightmap_witness :
    textAt (buildVisual ⟨"x", "", true⟩) ["material", "pbr", "metal", "light_map"] =
        some (meshesFolderPrefix ++ lightmap_filename) ∧
    textAt (buildVisual ⟨"x", "", true⟩) ["cast_shadows"] = some "0" :=
  (material_and_lightmap ⟨"x", "", true⟩).2.1 (by rfl)

/-- C9: the manifest always declares manifest version `1.0`, the fixed
author string, an sdf schema version equal to the scene document's root
schema version, and an sdf filename equal to the scene document's output
filename, for every export run. -/
theorem manifest_consistency (meshes : List MeshEntry) :
    textAt model_config ["version"] = some "1.0" ∧
    textAt model_config ["author", "name"] = some "Generated by blender SDF tools" ∧
    (getPath model_config ["sdf"]).bind (fun x => x.attr "version") =
      (export_sdf meshes).attr "version" ∧
    textAt model_config ["sdf"] = some sdf_filename := by
  exact ⟨rfl, rfl, rfl, rfl⟩
